import Mathlib

/-!
Verification development for the classiq-library notebook collection.

The repository is a set of Jupyter notebooks that call an external
quantum-computing platform.  The in-repo Python code that performs actual
computation is embedded here as Lean definitions:

* the quantum-volume analysis helpers `heavy_outputs_prob` and the
  volume-determination loop of `find_qv` (Quantum Volume notebook),
* the modular-multiplication matrix construction
  `get_modular_multiplication_matrix` (Shor notebook),
* a step-trace model of every notebook's sequence of platform calls and
  in-repo computations, used for the repository-level claims.

Machine floats in the source are modelled by exact rationals; the
platform-produced data (execution results, heavy-output estimates) is
abstracted as explicit inputs.
-/

/-! ### Execution results

Models the object returned by the platform's `execute(...).result()[0].value`:
the only field the in-repo code reads is `counts`, a dictionary from bitstring
to number of shots, modelled as an association list in insertion order. -/

structure ExecutionResults where
  counts : List (String × ℕ)
deriving Repr, DecidableEq

/-- List of the `counts` dictionary values, as produced by
`list(results.counts.values())`. -/
def countsValues (results : ExecutionResults) : List ℕ :=
  results.counts.map Prod.snd

/-! ### numpy primitives used by the notebook code -/

/-- Embedding of `np.median` on a list of naturals: sort the list; for odd
length take the middle element, for even length the average of the two middle
elements.  The result is an exact rational. -/
def np_median (d : List ℕ) : ℚ :=
  let s := d.insertionSort (· ≤ ·)
  if d.length % 2 = 1 then
    ((s.getD (d.length / 2) 0 : ℕ) : ℚ)
  else
    (((s.getD (d.length / 2 - 1) 0 : ℕ) : ℚ) + ((s.getD (d.length / 2) 0 : ℕ) : ℚ)) / 2

/-! ### Quantum Volume notebook: `heavy_outputs_prob`

Source:
```
def heavy_outputs_prob(results):
    d = list(results.counts.values())
    med = np.median(d)
    heavy_outputs_prob = 0
    for count, item in enumerate(d):
        if item >= med:
            heavy_outputs_prob = heavy_outputs_prob + item
    return heavy_outputs_prob
```
-/

/-- Accumulating loop of `heavy_outputs_prob`: add every `item` with
`item >= med` to the accumulator, in list order. -/
def heavyLoop (med : ℚ) : List ℕ → ℕ → ℕ
  | [], acc => acc
  | item :: rest, acc =>
      heavyLoop med rest (if med ≤ (item : ℚ) then acc + item else acc)

/-- Embedding of `heavy_outputs_prob`: sum of the counts values that are at
least the numpy median of all counts values. -/
def heavy_outputs_prob (results : ExecutionResults) : ℕ :=
  let d := countsValues results
  heavyLoop (np_median d) d 0

/-! ### Quantum Volume notebook: the volume-determination loop of `find_qv`

Source (second loop of `find_qv`; the first loop fills `heavy_list` and
`std_list` with platform-produced estimates, which are abstracted here as
explicit rational-valued inputs, one entry per qubit count `num`, at index
`s = num - min_qubits`):
```
for num in qubit_num:                      # range(min_qubits, max_qubits + 1)
    s = num - min_qubits
    heavy_is = heavy_list[s] - 2 * (std_list[s])
    if heavy_is >= 2 / 3:
        qubit_v = num
    else:
        break
qv = 2**qubit_v
return qv
```
-/

/-- Value `heavy_list[s] - 2 * std_list[s]` tested by `find_qv` at qubit
count `num`, with `s = num - min_qubits`. -/
def heavy_is (heavy_list std_list : List ℚ) (min_qubits num : ℕ) : ℚ :=
  heavy_list.getD (num - min_qubits) 0 - 2 * std_list.getD (num - min_qubits) 0

/-- Scanning loop of `find_qv`: walk the qubit counts in increasing order,
record the last count whose test value reached `2/3`, and stop at the first
count that fails. -/
def qvLoop (f : ℕ → ℚ) : List ℕ → ℕ → ℕ
  | [], qubit_v => qubit_v
  | num :: rest, qubit_v =>
      if (2 : ℚ) / 3 ≤ f num then qvLoop f rest num else qubit_v

/-- Embedding of the deterministic part of `find_qv`: given the per-qubit-count
heavy-output estimates `heavy_list` and standard-deviation estimates
`std_list` (computed by the first loop from platform executions), return
`2 ** qubit_v` as computed by the scanning loop started at `qubit_v = 0`. -/
def find_qv (min_qubits max_qubits : ℕ) (heavy_list std_list : List ℚ) : ℕ :=
  2 ^ qvLoop (heavy_is heavy_list std_list min_qubits)
      (List.range' min_qubits (max_qubits + 1 - min_qubits)) 0

/-! ### Helper lemmas for the quantum-volume claims -/

/-- Unfolding lemma: the accumulating loop of `heavy_outputs_prob` computes
the accumulator plus the sum of the elements at least `med`. -/
theorem heavyLoop_eq (med : ℚ) :
    ∀ (l : List ℕ) (acc : ℕ),
      heavyLoop med l acc = acc + (l.filter (fun x : ℕ => med ≤ (x : ℚ))).sum := by
  intro l
  induction l with
  | nil => intro acc; simp [heavyLoop]
  | cons item rest ih =>
      intro acc
      rw [heavyLoop, ih, List.filter_cons]
      by_cases h : med ≤ (item : ℚ)
      · rw [if_pos h, if_pos (decide_eq_true h), List.sum_cons]
        omega
      · rw [if_neg h, if_neg (by simp [h])]

/-- Sum of a filtered list of naturals is at most the sum of the list. -/
theorem filter_sum_le (p : ℕ → Bool) :
    ∀ l : List ℕ, (l.filter p).sum ≤ l.sum := by
  intro l
  induction l with
  | nil => simp
  | cons x rest ih =>
      by_cases h : p x
      · simp only [List.filter_cons, h, if_pos, List.sum_cons]
        omega
      · simp only [List.filter_cons, h, Bool.false_eq_true, if_neg,
          not_false_iff, List.sum_cons]
        omega

/-- Scanning-loop lemma: when every qubit count in the scanned range passes
the `2/3` test, the loop returns the last element of the range (or the
initial value for an empty range). -/
theorem qvLoop_all_pass (f : ℕ → ℚ) :
    ∀ (len a v : ℕ), (∀ i < len, (2 : ℚ) / 3 ≤ f (a + i)) →
      qvLoop f (List.range' a len) v = if len = 0 then v else a + len - 1 := by
  intro len
  induction len with
  | zero => intro a v _; simp [qvLoop]
  | succ m ih =>
      intro a v hpass
      rw [List.range'_succ, qvLoop,
        if_pos (by simpa using hpass 0 (Nat.succ_pos m))]
      rw [ih (a + 1) a (fun i hi => by
        have := hpass (i + 1) (by omega)
        simpa [Nat.add_assoc, Nat.add_comm 1 i] using this)]
      by_cases hm : m = 0
      · simp [hm]
      · rw [if_neg hm, if_neg (Nat.succ_ne_zero m)]
        omega

/-- Scanning-loop lemma: when the first `j` qubit counts pass the `2/3` test
and the `j`-th fails, the loop returns the initial value if `j = 0` and the
last passing count `a + j - 1` otherwise. -/
theorem qvLoop_first_fail (f : ℕ → ℚ) :
    ∀ (j len a v : ℕ), j < len →
      (∀ i < j, (2 : ℚ) / 3 ≤ f (a + i)) →
      ¬ ((2 : ℚ) / 3 ≤ f (a + j)) →
      qvLoop f (List.range' a len) v = if j = 0 then v else a + j - 1 := by
  intro j
  induction j with
  | zero =>
      intro len a v hlt _ hfail
      obtain ⟨m, rfl⟩ : ∃ m, len = m + 1 := ⟨len - 1, by omega⟩
      rw [List.range'_succ, qvLoop, if_neg (by simpa using hfail)]
      simp
  | succ k ih =>
      intro len a v hlt hpass hfail
      obtain ⟨m, rfl⟩ : ∃ m, len = m + 1 := ⟨len - 1, by omega⟩
      rw [List.range'_succ, qvLoop,
        if_pos (by simpa using hpass 0 (Nat.succ_pos k))]
      rw [ih m (a + 1) a (by omega)
        (fun i hi => by
          have := hpass (i + 1) (by omega)
          simpa [Nat.add_assoc, Nat.add_comm 1 i] using this)
        (by
          have : a + 1 + k = a + (k + 1) := by omega
          rw [this]; exact hfail)]
      by_cases hk : k = 0
      · simp [hk]
      · rw [if_neg hk, if_neg (Nat.succ_ne_zero k)]
        omega

/-- Scanning-loop lemma: the result depends only on the test values at
qubit counts that come no later than the first failing count.  If two test
functions agree at every count in the range that is preceded only by passing
counts, the loop results agree. -/
theorem qvLoop_congr (f g : ℕ → ℚ) :
    ∀ (len a v : ℕ),
      (∀ j < len, (∀ i < j, (2 : ℚ) / 3 ≤ f (a + i)) → g (a + j) = f (a + j)) →
      qvLoop g (List.range' a len) v = qvLoop f (List.range' a len) v := by
  intro len
  induction len with
  | zero => intro a v _; simp [qvLoop]
  | succ m ih =>
      intro a v hagree
      have h0 : g a = f a := by
        simpa using hagree 0 (Nat.succ_pos m) (fun i hi => absurd hi (Nat.not_lt_zero i))
      rw [List.range'_succ, qvLoop, qvLoop, h0]
      by_cases hp : (2 : ℚ) / 3 ≤ f a
      · rw [if_pos hp, if_pos hp]
        exact ih (a + 1) a (fun j hj hprev => by
          have := hagree (j + 1) (by omega) (fun i hi => by
            rcases Nat.eq_zero_or_pos i with hz | hpos
            · simpa [hz] using hp
            · have hstep := hprev (i - 1) (by omega)
              have heq : a + 1 + (i - 1) = a + i := by omega
              rwa [heq] at hstep)
          simpa [Nat.add_assoc, Nat.add_comm 1 j] using this)
      · rw [if_neg hp, if_neg hp]

/-! ### Claim theorems for the quantum-volume analysis -/

/-- C2: for every execution-results object whose counts values form a
non-empty list of integer shot counts, `heavy_outputs_prob` returns exactly
the sum of those count values that are at least the median of all the count
values, hence an absolute shot count between `0` and the total number of
shots rather than a probability in `[0, 1]`; normalization happens only
later, inside `find_qv`. -/
theorem heavy_outputs_prob_spec (results : ExecutionResults)
    (_hne : results.counts ≠ []) :
    heavy_outputs_prob results
        = ((countsValues results).filter
            (fun x : ℕ => np_median (countsValues results) ≤ (x : ℚ))).sum
      ∧ heavy_outputs_prob results ≤ (countsValues results).sum := by
  constructor
  · simp [heavy_outputs_prob, heavyLoop_eq]
  · rw [heavy_outputs_prob]
    rw [heavyLoop_eq, Nat.zero_add]
    exact filter_sum_le _ _

/-- Witness for C2 at the concrete counts dictionary
`{"00": 1, "01": 2, "11": 3}` (median `2`, heavy-output sum `2 + 3 = 5`,
total shots `6`). -/
theorem heavy_outputs_prob_spec_witness :
    (heavy_outputs_prob { counts := [("00", 1), ("01", 2), ("11", 3)] }
        = ((countsValues { counts := [("00", 1), ("01", 2), ("11", 3)] }).filter
            (fun x : ℕ =>
              np_median (countsValues { counts := [("00", 1), ("01", 2), ("11", 3)] })
                ≤ (x : ℚ))).sum
      ∧ heavy_outputs_prob { counts := [("00", 1), ("01", 2), ("11", 3)] }
          ≤ (countsValues { counts := [("00", 1), ("01", 2), ("11", 3)] }).sum)
      ∧ heavy_outputs_prob { counts := [("00", 1), ("01", 2), ("11", 3)] } = 5 :=
  ⟨heavy_outputs_prob_spec { counts := [("00", 1), ("01", 2), ("11", 3)] }
      (by simp),
    by
      have hmed : np_median [1, 2, 3] = 2 := by
        norm_num [np_median, List.insertionSort, List.orderedInsert]
      norm_num [heavy_outputs_prob, countsValues, hmed, heavyLoop]⟩

/-- C3: for `min_qubits ≤ max_qubits` (the heavy-output and deviation
estimates produced by the platform-driven first loop of `find_qv` are
abstracted as the input lists), `find_qv` returns `2 ^ k` where `k` is the
largest qubit count such that every count from `min_qubits` up to `k` has
estimate minus twice its deviation at least `2/3`; if `min_qubits` itself
fails the test the result is `2 ^ 0 = 1`; and estimates at counts after the
first failing one never affect the result. -/
theorem find_qv_spec (min_qubits max_qubits : ℕ)
    (hminmax : min_qubits ≤ max_qubits) (heavy_list std_list : List ℚ) :
    (∀ k, min_qubits ≤ k → k ≤ max_qubits →
      (∀ n, n ≤ k → min_qubits ≤ n →
        (2 : ℚ) / 3 ≤ heavy_is heavy_list std_list min_qubits n) →
      (k = max_qubits ∨
        ¬ ((2 : ℚ) / 3 ≤ heavy_is heavy_list std_list min_qubits (k + 1))) →
      find_qv min_qubits max_qubits heavy_list std_list = 2 ^ k)
    ∧ (¬ ((2 : ℚ) / 3 ≤ heavy_is heavy_list std_list min_qubits min_qubits) →
      find_qv min_qubits max_qubits heavy_list std_list = 2 ^ 0)
    ∧ (∀ heavy' std',
      (∀ n, min_qubits ≤ n → n ≤ max_qubits →
        (∀ m, min_qubits ≤ m → m < n →
          (2 : ℚ) / 3 ≤ heavy_is heavy_list std_list min_qubits m) →
        heavy_is heavy' std' min_qubits n
          = heavy_is heavy_list std_list min_qubits n) →
      find_qv min_qubits max_qubits heavy' std'
        = find_qv min_qubits max_qubits heavy_list std_list) := by
  refine ⟨?_, ?_, ?_⟩
  · intro k hk1 hk2 hall hor
    by_cases hkmax : k = max_qubits
    · subst hkmax
      rw [find_qv, qvLoop_all_pass _ _ _ _ (fun i hi => by
        refine hall (min_qubits + i) (by omega) (by omega))]
      rw [if_neg (by omega)]
      congr 1
      omega
    · have hfail :
          ¬ ((2 : ℚ) / 3 ≤ heavy_is heavy_list std_list min_qubits (k + 1)) := by
        rcases hor with h | h
        · exact absurd h hkmax
        · exact h
      rw [find_qv, qvLoop_first_fail _ (k + 1 - min_qubits) _ _ _ (by omega)
        (fun i hi => hall (min_qubits + i) (by omega) (by omega))
        (by
          have heq : min_qubits + (k + 1 - min_qubits) = k + 1 := by omega
          rw [heq]; exact hfail)]
      rw [if_neg (by omega)]
      congr 1
      omega
  · intro hfail
    rw [find_qv, qvLoop_first_fail _ 0 _ _ _ (by omega)
      (fun i hi => absurd hi (Nat.not_lt_zero i))
      (by simpa using hfail)]
    simp
  · intro heavy' std' hagree
    rw [find_qv, find_qv]
    congr 1
    exact qvLoop_congr _ _ _ _ _ (fun j hj hprev =>
      hagree (min_qubits + j) (by omega) (by omega) (fun m hm1 hm2 => by
        have := hprev (m - min_qubits) (by omega)
        have heq : min_qubits + (m - min_qubits) = m := by omega
        rwa [heq] at this))

/-- Witness for C3 with `min_qubits = 2`, `max_qubits = 4`, estimates
`heavy_list = [1, 1, 0]`, `std_list = [0, 0, 0]`: counts `2` and `3` pass the
`2/3` test, count `4` fails, so the quantum volume is `2 ^ 3`. -/
theorem find_qv_spec_witness :
    find_qv 2 4 [1, 1, 0] [0, 0, 0] = 2 ^ 3 :=
  (find_qv_spec 2 4 (by omega) [1, 1, 0] [0, 0, 0]).1 3 (by omega) (by omega)
    (by
      intro n hn1 hn2
      interval_cases n <;> norm_num [heavy_is])
    (Or.inr (by norm_num [heavy_is]))

/-! ### Shor notebook: `get_modular_multiplication_matrix`

Source:
```
def get_modular_multiplication_matrix():
    swap = np.array([[1,0,0,0],[0,0,1,0],[0,1,0,0],[0,0,0,1]], dtype=complex)
    swap32 = np.kron(np.identity(4), swap)
    swap21 = np.kron(np.kron(np.identity(2), swap), np.identity(2))
    swap10 = np.kron(swap, np.identity(4))
    x = np.array([[0, 1], [1, 0]])
    x_all = np.kron(np.kron(x, x), np.kron(x, x))
    u = x_all @ swap10 @ swap21 @ swap32
    return u
```
All entries involved are the integers `0` and `1` (the `dtype=complex` entries
have zero imaginary part, and `MODULAR_MUL_UNITARY` takes `.real`), so the
matrices are embedded with integer entries, as lists of rows mirroring the
numpy arrays. -/

/-- Dot product of two rows, used by matrix multiplication. -/
def dotZ (xs ys : List ℤ) : ℤ := (List.zipWith (· * ·) xs ys).sum

/-- Embedding of numpy matrix multiplication `a @ b` for square matrices
given as lists of rows. -/
def matmul (a b : List (List ℤ)) : List (List ℤ) :=
  a.map (fun row => b.transpose.map (fun col => dotZ row col))

/-- Embedding of `np.kron` for square matrices given as lists of rows: the
block at row `i1 * n + i2`, column `j1 * n + j2` is `a[i1][j1] * b[i2][j2]`. -/
def kron (a b : List (List ℤ)) : List (List ℤ) :=
  a.flatMap (fun ar => b.map (fun br => ar.flatMap (fun v => br.map (fun w => v * w))))

/-- Embedding of `np.identity n`. -/
def identityM (n : ℕ) : List (List ℤ) :=
  (List.range n).map (fun i => (List.range n).map (fun j => if i = j then 1 else 0))

/-- The two-qubit SWAP matrix `swap` from `get_modular_multiplication_matrix`. -/
def swap : List (List ℤ) := [[1,0,0,0],[0,0,1,0],[0,1,0,0],[0,0,0,1]]

/-- The Pauli matrix `x` from `get_modular_multiplication_matrix`. -/
def x_mat : List (List ℤ) := [[0,1],[1,0]]

/-- Matrix `swap32 = np.kron(np.identity(4), swap)`. -/
def swap32 : List (List ℤ) := kron (identityM 4) swap

/-- Matrix `swap21 = np.kron(np.kron(np.identity(2), swap), np.identity(2))`. -/
def swap21 : List (List ℤ) := kron (kron (identityM 2) swap) (identityM 2)

/-- Matrix `swap10 = np.kron(swap, np.identity(4))`. -/
def swap10 : List (List ℤ) := kron swap (identityM 4)

/-- Matrix `x_all = np.kron(np.kron(x, x), np.kron(x, x))`. -/
def x_all : List (List ℤ) := kron (kron x_mat x_mat) (kron x_mat x_mat)

/-- Embedding of `get_modular_multiplication_matrix`:
`u = x_all @ swap10 @ swap21 @ swap32`. -/
def get_modular_multiplication_matrix : List (List ℤ) :=
  matmul (matmul (matmul x_all swap10) swap21) swap32

/-- Permutation of the 16 computational-basis indices claimed for the
modular-multiplication matrix: multiplication by `7` modulo `15` on
`1 ≤ x ≤ 14`, with the indices `0` and `15` exchanged. -/
def shor_perm (j : ℕ) : ℕ := if j = 0 then 15 else if j = 15 then 0 else 7 * j % 15

set_option maxRecDepth 100000 in
/-- C5: `get_modular_multiplication_matrix` is a `16 × 16` matrix of `0/1`
entries whose column `j` has its single `1` in row `shor_perm j`, so it is the
permutation matrix of `shor_perm` (a bijection on basis indices, hence
orthogonal/unitary); the permutation sends every `x` with `1 ≤ x ≤ 14` to
`7 * x mod 15` and exchanges the indices `0` and `15`. -/
theorem get_modular_multiplication_matrix_spec :
    get_modular_multiplication_matrix.length = 16
    ∧ (∀ row ∈ get_modular_multiplication_matrix, row.length = 16)
    ∧ (∀ i < 16, ∀ j < 16,
        (get_modular_multiplication_matrix.getD i []).getD j 0
          = if i = shor_perm j then (1 : ℤ) else 0)
    ∧ (∀ j1 < 16, ∀ j2 < 16, shor_perm j1 = shor_perm j2 → j1 = j2)
    ∧ (∀ j < 16, shor_perm j < 16)
    ∧ (∀ v < 15, 1 ≤ v → shor_perm v = 7 * v % 15)
    ∧ shor_perm 0 = 15 ∧ shor_perm 15 = 0 := by
  refine ⟨by decide, by decide, by decide, by decide, by decide, by decide,
    by decide, by decide⟩

/-! ### Step-trace model of the notebooks

Each notebook document is transcribed as the sequence of operations its code
cells perform, in cell order, with the bodies of locally defined helper
functions flattened at their call sites.  Platform calls keep their API
names; code that runs inside the repository is tagged with the kind of
computation it performs. -/

/-- Kinds of computation performed by code defined inside the repository. -/
inductive CompKind where
  /-- Statistical benchmarking of execution counts: median-based heavy-output
  counting, mean and standard-deviation aggregation, threshold decision
  (`heavy_outputs_prob`, the aggregation and decision code of `find_qv`). -/
  | statBenchmark
  /-- Numeric construction of a unitary-matrix parameter
  (`get_modular_multiplication_matrix`). -/
  | matrixConstruction
  /-- Haar-random unitary parameter generation (`haar`, via QR). -/
  | randomUnitaryGen
  /-- Formatting, printing, plotting or tabulating returned results
  (matplotlib, pandas, `print`, trailing display expressions). -/
  | resultFormatting
  /-- Choice and construction of configuration parameters and problem
  definitions (constants, Pyomo problems, backend preferences). -/
  | paramSetup
  /-- In-repo compilation of a model into a circuit or gate decomposition
  (present in no notebook). -/
  | circuitCompilation
  /-- In-repo quantum simulation (present in no notebook). -/
  | simulation
  /-- In-repo circuit transpilation (present in no notebook). -/
  | transpilation
  /-- In-repo step of an optimization algorithm such as QAOA/VQE
  (present in no notebook). -/
  | optimizationStep
deriving DecidableEq, Repr

/-- One operation of a notebook: a call into the external platform, or a
computation executed by code defined in this repository. -/
inductive Step where
  /-- Platform model construction: `create_model`, `construct_grover_model`,
  `construct_combinatorial_optimization_model`. -/
  | buildModel
  /-- Platform serialization call `write_qmod`. -/
  | writeQmod
  /-- Platform synthesis call `synthesize`. -/
  | synthesizeCall
  /-- Platform call `set_quantum_program_execution_preferences`. -/
  | setPrefsCall
  /-- Platform execution call `execute`. -/
  | executeCall
  /-- Platform circuit-visualization call `show` (opens a circuit link). -/
  | showCall
  /-- Platform post-processing call `get_optimization_solution_from_pyo`. -/
  | solutionCall
  /-- Computation performed by code defined in this repository. -/
  | inRepo (k : CompKind)
deriving DecidableEq, Repr

/-- Trace of the Grover notebook (`part_001`, first document). -/
def grover_steps : List Step :=
  [.inRepo .paramSetup, .buildModel, .writeQmod, .synthesizeCall, .showCall,
   .inRepo .paramSetup, .setPrefsCall, .executeCall, .inRepo .resultFormatting]

/-- Trace of the Quantum Volume notebook (`part_001`, second document):
the simulator example cell runs `find_qv`, whose per-trial body generates
Haar-random unitaries, builds `qv_model`, synthesizes, sets preferences,
executes, and feeds the counts to the in-repo statistical analysis
(`heavy_outputs_prob`, mean/deviation aggregation, threshold decision). -/
def quantum_volume_steps : List Step :=
  [.inRepo .paramSetup, .inRepo .randomUnitaryGen, .buildModel,
   .synthesizeCall, .setPrefsCall, .executeCall, .inRepo .statBenchmark,
   .inRepo .resultFormatting, .inRepo .statBenchmark]

/-- Trace of the Shor notebook. -/
def shor_steps : List Step :=
  [.inRepo .paramSetup, .inRepo .matrixConstruction, .buildModel, .writeQmod,
   .synthesizeCall, .showCall, .executeCall, .inRepo .resultFormatting,
   .inRepo .resultFormatting]

/-- Trace of the Linear Pauli Rotations notebook (`part_000`). -/
def linear_pauli_rotations_steps : List Step :=
  [.inRepo .paramSetup, .buildModel, .writeQmod, .synthesizeCall]

/-- Trace of the Suzuki-Trotter notebook. -/
def suzuki_trotter_steps : List Step :=
  [.buildModel, .writeQmod, .synthesizeCall]

/-- Trace of the Unitary Function notebook. -/
def unitary_example_steps : List Step :=
  [.inRepo .paramSetup, .buildModel, .writeQmod, .synthesizeCall]

/-- Trace of the Comparators notebook (the first model is only synthesized;
the second is synthesized, executed, and its parsed counts displayed). -/
def comparator_example_steps : List Step :=
  [.buildModel, .writeQmod, .synthesizeCall, .buildModel, .writeQmod,
   .synthesizeCall, .executeCall, .inRepo .resultFormatting]

/-- Trace of the Subtraction notebook (two models, each synthesized,
executed, and printed). -/
def subtraction_example_steps : List Step :=
  [.buildModel, .writeQmod, .synthesizeCall, .executeCall,
   .inRepo .resultFormatting, .buildModel, .writeQmod, .synthesizeCall,
   .executeCall, .inRepo .resultFormatting]

/-- Trace of the Minimum and Maximum notebook (first document of the
extremum example file). -/
def minimum_maximum_example_steps : List Step :=
  [.buildModel, .writeQmod, .synthesizeCall, .executeCall,
   .inRepo .resultFormatting, .buildModel, .writeQmod, .synthesizeCall,
   .executeCall, .inRepo .resultFormatting]

/-- Trace of the Bitwise Or notebook (second document of the extremum
example file). -/
def bitwise_or_example_steps : List Step :=
  [.buildModel, .writeQmod, .synthesizeCall, .executeCall,
   .inRepo .resultFormatting, .buildModel, .writeQmod, .synthesizeCall,
   .executeCall, .inRepo .resultFormatting]

/-- Trace of the Negation notebook (third document of the extremum example
file). -/
def negation_example_steps : List Step :=
  [.buildModel, .writeQmod, .synthesizeCall, .executeCall,
   .inRepo .resultFormatting]

/-- Trace of the Learning Optimization (QAOA) tutorial: the walkthrough
supplies the Pyomo problem and `QAOAConfig`, builds the model, synthesizes,
executes, extracts the solution via the platform, tabulates it with pandas,
and shows the circuit; a final recap cell repeats the same sequence. -/
def learning_optimization_steps : List Step :=
  [.inRepo .paramSetup, .buildModel, .synthesizeCall, .executeCall,
   .solutionCall, .inRepo .resultFormatting, .showCall,
   .inRepo .paramSetup, .buildModel, .synthesizeCall, .executeCall,
   .solutionCall, .inRepo .resultFormatting, .showCall]

/-- All notebook documents of the repository with their step traces. -/
def notebooks : List (String × List Step) :=
  [("grover", grover_steps),
   ("quantum_volume", quantum_volume_steps),
   ("shor", shor_steps),
   ("linear_pauli_rotations", linear_pauli_rotations_steps),
   ("suzuki_trotter", suzuki_trotter_steps),
   ("unitary_example", unitary_example_steps),
   ("comparator_example", comparator_example_steps),
   ("subtraction_example", subtraction_example_steps),
   ("minimum_maximum_example", minimum_maximum_example_steps),
   ("bitwise_or_example", bitwise_or_example_steps),
   ("negation_example", negation_example_steps),
   ("learning_optimization", learning_optimization_steps)]

/-- Step classifier: platform model construction. -/
def isBuild : Step → Bool
  | .buildModel => true
  | _ => false

/-- Step classifier: platform synthesis. -/
def isSynth : Step → Bool
  | .synthesizeCall => true
  | _ => false

/-- Step classifier: platform execution. -/
def isExec : Step → Bool
  | .executeCall => true
  | _ => false

/-- Step classifier: display of results, either by the platform circuit
viewer or by in-repo formatting/plotting. -/
def isDisplay : Step → Bool
  | .showCall => true
  | .inRepo .resultFormatting => true
  | _ => false

/-- Step classifier: in-repo formatting/plotting of returned results. -/
def isResultFormatting : Step → Bool
  | .inRepo .resultFormatting => true
  | _ => false

/-- Step classifier: in-repo algorithmic computation in one of the
categories named by the specification (circuit synthesis, transpilation,
simulation, optimization-algorithm execution, statistical benchmarking). -/
def isListedAlgorithmic : Step → Bool
  | .inRepo .statBenchmark => true
  | .inRepo .circuitCompilation => true
  | .inRepo .simulation => true
  | .inRepo .transpilation => true
  | .inRepo .optimizationStep => true
  | _ => false

/-- Step classifier: in-repo computation of a compiled circuit or gate
decomposition. -/
def isCircuitComputation : Step → Bool
  | .inRepo .circuitCompilation => true
  | .inRepo .transpilation => true
  | _ => false

/-- Step classifier: configuration supply, platform call, or in-repo
formatting of returned results (everything except in-repo algorithmic or
numeric computation). -/
def isConfigPlatformOrFormatting : Step → Bool
  | .inRepo .statBenchmark => false
  | .inRepo .matrixConstruction => false
  | .inRepo .randomUnitaryGen => false
  | .inRepo .circuitCompilation => false
  | .inRepo .simulation => false
  | .inRepo .transpilation => false
  | .inRepo .optimizationStep => false
  | _ => true

/-- Phase matcher: `matchesPhases ps l` holds when `l` has a subsequence
whose elements satisfy the predicates of `ps` in order. -/
def matchesPhases : List (Step → Bool) → List Step → Bool
  | [], _ => true
  | _ :: _, [] => false
  | p :: ps, s :: rest =>
      if p s then matchesPhases ps rest else matchesPhases (p :: ps) rest

/-- The four phases demanded by the specification narrative: build a model,
synthesize it, execute it, display the results. -/
def fourPhases : List (Step → Bool) := [isBuild, isSynth, isExec, isDisplay]

/-- Helper for `eachPrecededBy`: scan the trace with a flag recording
whether a `need` step was already seen. -/
def precededCheck (need target : Step → Bool) : List Step → Bool → Bool
  | [], _ => true
  | s :: rest, seen =>
      (!(target s) || seen) && precededCheck need target rest (seen || need s)

/-- `eachPrecededBy need target l` holds when every `target` step of `l` is
preceded by an earlier `need` step. -/
def eachPrecededBy (need target : Step → Bool) (l : List Step) : Bool :=
  precededCheck need target l false

/-! ### Lemmas and claim theorems at the repository level -/

/-- Median congruence: the numpy median depends only on the multiset of
values. -/
theorem np_median_perm {l1 l2 : List ℕ} (h : l1.Perm l2) :
    np_median l1 = np_median l2 := by
  have hsort : l1.insertionSort (· ≤ ·) = l2.insertionSort (· ≤ ·) :=
    List.eq_of_perm_of_sorted
      ((List.perm_insertionSort _ l1).trans (h.trans (List.perm_insertionSort _ l2).symm))
      (List.sorted_insertionSort _ l1) (List.sorted_insertionSort _ l2)
  rw [np_median, np_median, hsort, h.length_eq]

/-- C1 is refuted at the Quantum Volume notebook: its trace contains an
in-repo statistical-benchmarking step (the median/mean/deviation analysis of
`heavy_outputs_prob` and `find_qv`), so it is not true that no algorithmic
computation in the listed categories is performed by code in this source
tree. -/
theorem thin_wrapper_counterexample :
    ("quantum_volume", quantum_volume_steps) ∈ notebooks
    ∧ Step.inRepo CompKind.statBenchmark ∈ quantum_volume_steps
    ∧ notebooks.all
        (fun nb => nb.2.all (fun s => !(isListedAlgorithmic s))) = false := by
  refine ⟨by decide, by decide, by decide⟩

/-- C1 amended: every notebook other than the Quantum Volume notebook
performs no in-repo algorithmic computation in the categories listed by the
specification, and even the Quantum Volume notebook performs no in-repo
circuit synthesis, transpilation, simulation, or optimization-algorithm
execution — the single exception is its in-repo statistical benchmarking. -/
theorem thin_wrapper_amended :
    (notebooks.filter (fun nb => !(nb.1 == "quantum_volume"))).all
        (fun nb => nb.2.all (fun s => !(isListedAlgorithmic s))) = true
    ∧ notebooks.all (fun nb => nb.2.all (fun s =>
        !(isCircuitComputation s)
        && !(s == Step.inRepo CompKind.simulation)
        && !(s == Step.inRepo CompKind.optimizationStep))) = true := by
  refine ⟨by decide, by decide⟩

/-- C4 is refuted at the Suzuki-Trotter notebook, which builds a model and
synthesizes it but never executes a program or displays results, so not
every notebook performs the four steps build / synthesize / execute /
display. -/
theorem four_phase_counterexample :
    ("suzuki_trotter", suzuki_trotter_steps) ∈ notebooks
    ∧ matchesPhases fourPhases suzuki_trotter_steps = false
    ∧ notebooks.all (fun nb => matchesPhases fourPhases nb.2) = false := by
  refine ⟨by decide, by decide, by decide⟩

/-- C4 amended: every notebook builds a model and then synthesizes it, in
that order; every execution step comes after a synthesis step; and every
in-repo display of returned results comes after an execution step; but not
every notebook executes or displays results. -/
theorem four_phase_amended :
    notebooks.all (fun nb =>
      matchesPhases [isBuild, isSynth] nb.2
      && eachPrecededBy isSynth isExec nb.2
      && eachPrecededBy isExec isResultFormatting nb.2) = true := by
  decide

set_option maxRecDepth 100000 in
/-- C6 is refuted by a platform-independent input-output contract, stated
and mechanically checked on concrete inputs, for two functions defined in
this repository: `heavy_outputs_prob` maps the counts
`{"00": 100, "01": 200, "11": 300}` to `500`, and
`get_modular_multiplication_matrix` has a `1` in row `7`, column `1`. -/
theorem no_independent_contract_counterexample :
    heavy_outputs_prob { counts := [("00", 100), ("01", 200), ("11", 300)] } = 500
    ∧ (get_modular_multiplication_matrix.getD 7 []).getD 1 0 = 1 := by
  constructor
  · have hmed : np_median [100, 200, 300] = 200 := by
      norm_num [np_median, List.insertionSort, List.orderedInsert]
    norm_num [heavy_outputs_prob, countsValues, hmed, heavyLoop]
  · decide

set_option maxRecDepth 100000 in
/-- C6 amended: the notebooks delegate to the platform, but the pure helper
functions defined in this repository do satisfy platform-independent
testable input-output contracts: `heavy_outputs_prob` never exceeds the
total number of shots, and every column of
`get_modular_multiplication_matrix` sums to `1`. -/
theorem in_repo_helper_contracts (r : ExecutionResults) :
    heavy_outputs_prob r ≤ (countsValues r).sum
    ∧ ∀ j < 16,
        ((List.range 16).map
          (fun i => (get_modular_multiplication_matrix.getD i []).getD j 0)).sum
          = 1 := by
  constructor
  · rw [heavy_outputs_prob]
    rw [heavyLoop_eq, Nat.zero_add]
    exact filter_sum_le _ _
  · decide

/-- C7: in every notebook, every execution step operates on a program
obtained from an earlier platform `synthesize` call, and no notebook trace
contains an in-repo computation of a compiled circuit or a gate
decomposition. -/
theorem synthesis_only_from_platform :
    notebooks.all (fun nb =>
      eachPrecededBy isSynth isExec nb.2
      && nb.2.all (fun s => !(isCircuitComputation s))) = true := by
  decide

/-- C8: every step of the QAOA-based Learning Optimization tutorial is a
configuration-supply step, a platform call, or in-repo formatting of
returned results; no step of the QAOA/VQE optimization algorithm itself is
computed by code defined in this repository. -/
theorem qaoa_notebook_config_only :
    ("learning_optimization", learning_optimization_steps) ∈ notebooks
    ∧ learning_optimization_steps.all isConfigPlatformOrFormatting = true := by
  refine ⟨by decide, by decide⟩

/-- C9: the in-repo result analysis is a pure, order-insensitive function of
its input data: `heavy_outputs_prob` returns the same value on any two
execution-results objects whose shot counts are permutations of each other,
so the computation maintains no mutable state that depends on iteration or
invocation order, in accordance with the straight-line sequential character
of the in-repo code. -/
theorem heavy_outputs_prob_order_independent (r1 r2 : ExecutionResults)
    (h : (countsValues r1).Perm (countsValues r2)) :
    heavy_outputs_prob r1 = heavy_outputs_prob r2 := by
  rw [heavy_outputs_prob, heavy_outputs_prob]
  rw [heavyLoop_eq, heavyLoop_eq, Nat.zero_add, Nat.zero_add, np_median_perm h]
  exact List.Perm.sum_eq (h.filter _)

/-- Witness for C9 at two concrete results objects whose counts
dictionaries list the same entries in different orders. -/
theorem heavy_outputs_prob_order_independent_witness :
    heavy_outputs_prob { counts := [("00", 1), ("11", 2)] }
      = heavy_outputs_prob { counts := [("11", 2), ("00", 1)] } :=
  heavy_outputs_prob_order_independent
    { counts := [("00", 1), ("11", 2)] } { counts := [("11", 2), ("00", 1)] }
    (by decide)

/-- Witness for C5: the entry of `get_modular_multiplication_matrix` in row
`7`, column `1` evaluated through the permutation characterization. -/
theorem get_modular_multiplication_matrix_spec_witness :
    (get_modular_multiplication_matrix.getD 7 []).getD 1 0
      = if 7 = shor_perm 1 then (1 : ℤ) else 0 :=
  get_modular_multiplication_matrix_spec.2.2.1 7 (by decide) 1 (by decide)

/-- Witness for the amended C6 at the concrete counts dictionary
`{"0": 3}` and column `3` of the modular-multiplication matrix. -/
theorem in_repo_helper_contracts_witness :
    heavy_outputs_prob { counts := [("0", 3)] }
        ≤ (countsValues { counts := [("0", 3)] }).sum
    ∧ ((List.range 16).map
        (fun i => (get_modular_multiplication_matrix.getD i []).getD 3 0)).sum
        = 1 :=
  ⟨(in_repo_helper_contracts { counts := [("0", 3)] }).1,
   (in_repo_helper_contracts { counts := [("0", 3)] }).2 3 (by decide)⟩
